import Mathlib

/-!
Shallow embedding of the copy-job orchestration library (dunetuf copy):
the `Copy` base orchestrator (Old Lib/copy/copy.py) and its Dune-family
variants (New Lib/copy/dune/copy_dune.py, enterprise/copy_enterprise.py,
designjet/copy_designjet.py, homepro/copy_homepro.py).

External collaborators (job manager, ticket store, alert channel, device
configuration) are modelled as a pure oracle record `Env`; the stateful
orchestration methods are embedded as functions producing an explicit
event trace together with an `Except` result.  Wall-clock time in the
readiness poll is discretised: only `time.sleep(2)` advances time, so the
k-th poll of the loop happens at elapsed time `2*k` seconds.
-/

namespace DuneCopy

/-- Scan settings of a payload's `src.scan` sub-dictionary (the fields the
orchestrator reads or writes). `none` models an absent key. -/
structure ScanSrc where
  mediaSource : Option String
  plexMode : Option String
  resolution : Option String
deriving Repr, DecidableEq

/-- Print settings of a payload's `dest.print` sub-dictionary. -/
structure PrintDest where
  plexMode : Option String
  duplexBinding : Option String
deriving Repr, DecidableEq

/-- A ticket payload: optional `src` (its `scan` sub-dict) and optional
`dest` (its `print` sub-dict), matching the access pattern of
`Copy._updating_ticket`, which indexes `payload['src']['scan']` and
`payload['dest']['print']` whenever the top-level key is present. -/
structure Payload where
  src : Option ScanSrc
  dest : Option PrintDest
deriving Repr, DecidableEq

/-- Instance flags of the orchestrator set by `Copy.__init__` to `None`
and updated by `_updating_ticket` (`Option Bool` models the Python
`None`/`True`/`False` triple). -/
structure CopyState where
  adfLoaded : Option Bool
  outputDuplex : Option Bool
  duplex : Option Bool
deriving Repr, DecidableEq

/-- Flags as set by `Copy.__init__`: all `None`. -/
def initCopyState : CopyState := { adfLoaded := none, outputDuplex := none, duplex := none }

/-- Embeds `Copy._updating_ticket` (copy.py lines 265-298): records the
ADF/duplex flags from the `src` section and, when `dest.print.plexMode`
is `"duplex"`, forces an absent or `"oneSided"` `duplexBinding` to
`"twoSidedLongEdge"`.  Returns the updated flags and the (mutated)
payload. -/
def updatingTicket (st : CopyState) (p : Payload) : CopyState × Payload :=
  let st1 :=
    match p.src with
    | none => st
    | some s =>
      let stA := if s.mediaSource = some "flatbed" then { st with adfLoaded := some false } else st
      if s.plexMode = some "duplex" then { stA with duplex := some true } else stA
  match p.dest with
  | none => (st1, p)
  | some d =>
    if d.plexMode = some "duplex" then
      let st2 := { st1 with outputDuplex := some true }
      let d2 :=
        match d.duplexBinding with
        | some b =>
          if b = "oneSided" then { d with duplexBinding := some "twoSidedLongEdge" } else d
        | none => { d with duplexBinding := some "twoSidedLongEdge" }
      (st2, { p with dest := some d2 })
    else (st1, p)

/-- Embeds the payload flow of `Copy.create_ticket` (copy.py lines
93-112): `_updating_ticket` mutates the payload in place, and the mutated
payload is the one passed to the ticket store's `update` (persistence).
This is the persisted payload. -/
def createTicketPayload (st : CopyState) (p : Payload) : Payload :=
  (updatingTicket st p).2

/-- Embeds `CopyEnterprise._updating_ticket` (copy_enterprise.py lines
14-25): applies the base normalization, then, when
`payload.get("src", {}).get("scan", {}).get("resolution")` is truthy
(present and a non-empty string), overwrites it with `"e600Dpi"`. -/
def enterpriseUpdatingTicket (st : CopyState) (p : Payload) : CopyState × Payload :=
  let base := updatingTicket st p
  let st1 := base.1
  let p1 := base.2
  match p1.src with
  | some s =>
    match s.resolution with
    | some r =>
      if r = "" then (st1, p1)
      else (st1, { p1 with src := some { s with resolution := some "e600Dpi" } })
    | none => (st1, p1)
  | none => (st1, p1)

/-- Ticket data returned by the ticket store's `get_info`, restricted to
the path `data['src']['scan']['scanCaptureMode']` that
`_has_two_segment_pipeline` reads; `none` models a missing key anywhere
on that path (a Python `KeyError`). -/
structure TicketData where
  scanCaptureMode : Option String
deriving Repr, DecidableEq

/-- Result of a character-list substring test, used to embed the Python
`"beam" in cls._product_name` membership test. -/
def hasSubstrAux (pat : List Char) : List Char → Bool
  | [] => pat.isEmpty
  | c :: rest => pat.isPrefixOf (c :: rest) || hasSubstrAux pat rest

/-- Python `pat in s` on strings: `pat` occurs as a contiguous substring
of `s`. -/
def strContains (s pat : String) : Bool :=
  hasSubstrAux pat.toList s.toList

/-- The closed set of concrete orchestrator variants selectable by the
construction-time dispatch. -/
inductive FamilyVariant where
  | enterprise
  | designjet
  | homepro
  | beam
  | dune
deriving Repr, DecidableEq

/-- Embeds the construction-time family dispatch of `CopyDune.__new__`
(copy_dune.py lines 15-43) together with the `CopyHomePro.__new__`
refinement (copy_homepro.py lines 16-39): `"enterprise"`, `"designjet"`
and `"homepro"` select their variants (homepro refined to beam when the
product name contains `"beam"`); any other family name falls through to
the generic base-dune behavior. -/
def resolveFamily (familyName productName : String) : FamilyVariant :=
  if familyName = "enterprise" then .enterprise
  else if familyName = "designjet" then .designjet
  else if familyName = "homepro" then
    if strContains productName "beam" then .beam else .homepro
  else .dune

/-- Observable calls made by the orchestration methods on their external
collaborators, in order. -/
inductive Event where
  | changeState (jobId action targetState : String) (status : Nat)
  | getJobInfo (jobId state : String)
  | sleep2
  | sleep25
  | waitJobState (jobId : String) (states : List String)
  | waitAlerts (alertName : String)
  | alertAction (alertName response : String)
  | waitAllPreviews (jobId : String)
  | waitSubStatus (subStatus : String)
deriving Repr, DecidableEq

/-- Errors surfaced by the orchestration sequence.  Python `assert` on a
state-change status code is modelled by `stateTransitionError` (the
spec's name for a non-success status of an expected transition);
Python `TimeoutError` by `timeoutError`; the remaining designjet
`assert` message by `assertionError`. -/
inductive CopyErr where
  | stateTransitionError (action targetState : String) (status : Nat)
  | timeoutError (msg : String)
  | assertionError (msg : String)
deriving Repr, DecidableEq

/-- Placeholder message of the collaborator-raised `TimeoutError` of
`wait_for_job_state` (its exact text lives outside this repository). -/
def waitJobStateMsg : String := "wait_for_job_state"

/-- Pure oracle for the external collaborators: status codes for
`change_job_state`, the job state seen by the k-th readiness poll, the
`WAIT_START_JOB_TIMEOUT` constant, whether the i-th preview
`wait_for_job_state(job, [ready])` call succeeds, the device-reported
ADF load state, whether a named alert arrives before `wait_for_alerts`
times out, the ticket store's `get_info`, the device copy configuration's
`copyMode`, whether `wait_for_state(job, [processing])` succeeds, and the
result of `wait_for_all_previews_done`. -/
structure Env where
  changeStatus : String → String → String → Nat
  pollState : Nat → String
  waitTimeout : Nat
  waitReadyOk : Nat → Bool
  adfLoadedDevice : Bool
  alertArrives : String → Bool
  getInfo : String → Option TicketData
  copyMode : String
  waitProcessingOk : Bool
  previewsDone : Bool

/-- Embeds `Copy._has_two_segment_pipeline` (copy.py lines 300-309): any
failure of `get_info` or a missing `scanCaptureMode` field is caught by
the bare `except` and yields `false`; otherwise the field is compared
with `"jobBuild"`. -/
def hasTwoSegmentPipeline (env : Env) (ticketId : String) : Bool :=
  match env.getInfo ticketId with
  | none => false
  | some d =>
    match d.scanCaptureMode with
    | none => false
    | some v => v == "jobBuild"

/-- Message of the `TimeoutError` raised by `Copy.preview_start` when the
readiness poll exhausts `WAIT_START_JOB_TIMEOUT`. -/
def readyTimeoutMsg (t : Nat) : String :=
  "Job has not reached the ready state after " ++ toString t ++ " seconds"

/-- Number of `get_job_info` polls the readiness loop performs when the
job never reads ready: the k-th poll (k from 0) happens at elapsed time
`2*k` seconds and runs only while `2*k < t`. -/
def numPolls (t : Nat) : Nat := (t + 1) / 2

/-- Embeds the polling loop of `Copy.preview_start` (copy.py lines
181-189): fuelled by the remaining number of polls, `k` is the index of
the current poll; each failed poll sleeps 2 seconds.  Returns the events
and whether the ready state was observed. -/
def readyPoll (env : Env) (jobId : String) : Nat → Nat → List Event × Bool
  | _, 0 => ([], false)
  | k, n + 1 =>
    let s := env.pollState k
    if s = "ready" then ([.getJobInfo jobId s], true)
    else
      let rest := readyPoll env jobId (k + 1) n
      (.getJobInfo jobId s :: .sleep2 :: rest.1, rest.2)

/-- The Initialize transition event issued at the top of
`Copy.preview_start`. -/
def initEv (env : Env) (jobId : String) : Event :=
  .changeState jobId "Initialize" "initializeProcessing"
    (env.changeStatus jobId "Initialize" "initializeProcessing")

/-- Embeds `Copy.preview_start` (copy.py lines 166-191): issues
Initialize/initializeProcessing, asserts its status is 200, then polls
`get_job_info` every 2 seconds until `"ready"` or the
`WAIT_START_JOB_TIMEOUT` bound, raising `TimeoutError` on exhaustion.
The `ticketId` parameter is accepted and unused, as in the source. -/
def previewStartOld (env : Env) (jobId ticketId : String) : List Event × Except CopyErr Unit :=
  let st := env.changeStatus jobId "Initialize" "initializeProcessing"
  if st = 200 then
    let poll := readyPoll env jobId 0 (numPolls env.waitTimeout)
    if poll.2 then (initEv env jobId :: poll.1, .ok ())
    else (initEv env jobId :: poll.1, .error (.timeoutError (readyTimeoutMsg env.waitTimeout)))
  else ([initEv env jobId], .error (.stateTransitionError "Initialize" "initializeProcessing" st))

/-- One iteration of the preview loop of `CopyDune.preview_start`
(copy_dune.py lines 90-96): a Preview/prepareProcessing state change
(status unchecked), a 2.5s settle sleep, then
`wait_for_job_state(job, [ready])` whose `TimeoutError` propagates. -/
def previewIter (env : Env) (jobId : String) (i : Nat) : List Event × Except CopyErr Unit :=
  let st := env.changeStatus jobId "Preview" "prepareProcessing"
  if env.waitReadyOk i then
    ([.changeState jobId "Preview" "prepareProcessing" st, .sleep25,
      .waitJobState jobId ["ready"]], .ok ())
  else
    ([.changeState jobId "Preview" "prepareProcessing" st, .sleep25],
      .error (.timeoutError waitJobStateMsg))

/-- The preview loop `for _ in range(preview_reps)` of
`CopyDune.preview_start`, starting at iteration index `i` with `n`
iterations left. -/
def previewLoop (env : Env) (jobId : String) : Nat → Nat → List Event × Except CopyErr Unit
  | _, 0 => ([], .ok ())
  | i, n + 1 =>
    let it := previewIter env jobId i
    match it.2 with
    | .ok _ =>
      let rest := previewLoop env jobId (i + 1) n
      (it.1 ++ rest.1, rest.2)
    | .error e => (it.1, .error e)

/-- Trace of one successful preview iteration. -/
def previewBlock (env : Env) (jobId : String) : List Event :=
  [.changeState jobId "Preview" "prepareProcessing"
      (env.changeStatus jobId "Preview" "prepareProcessing"),
   .sleep25, .waitJobState jobId ["ready"]]

/-- Embeds `CopyDune.preview_start` (copy_dune.py lines 79-98): the base
`Copy.preview_start`, then, when `preview_reps != 0`, the preview
loop. -/
def previewStartDune (env : Env) (jobId ticketId : String) (reps : Nat) :
    List Event × Except CopyErr Unit :=
  let base := previewStartOld env jobId ticketId
  match base.2 with
  | .error e => (base.1, .error e)
  | .ok _ =>
    if reps = 0 then (base.1, .ok ())
    else
      let lp := previewLoop env jobId 0 reps
      (base.1 ++ lp.1, lp.2)

/-- Embeds `CopyDune.start` (copy_dune.py lines 45-77): runs
`preview_start`; with `preview_reps == 0` it immediately issues
Start/startProcessing and returns its status; otherwise it sleeps 2.5s,
issues Start, and, when the device reports the ADF not loaded, waits for
a `flatbedAddPage` alert and answers it with `"Response_02"`, swallowing
a `TimeoutError` of that wait. -/
def startDune (env : Env) (jobId ticketId : String) (reps : Nat) :
    List Event × Except CopyErr Nat :=
  let prev := previewStartDune env jobId ticketId reps
  match prev.2 with
  | .error e => (prev.1, .error e)
  | .ok _ =>
    if reps = 0 then
      let s := env.changeStatus jobId "Start" "startProcessing"
      (prev.1 ++ [.changeState jobId "Start" "startProcessing" s], .ok s)
    else
      let s := env.changeStatus jobId "Start" "startProcessing"
      let evs2 := prev.1 ++ [.sleep25, .changeState jobId "Start" "startProcessing" s]
      if env.adfLoadedDevice then (evs2, .ok s)
      else if env.alertArrives "flatbedAddPage" then
        (evs2 ++ [.waitAlerts "flatbedAddPage", .alertAction "flatbedAddPage" "Response_02"],
          .ok s)
      else (evs2 ++ [.waitAlerts "flatbedAddPage"], .ok s)

/-- Python truthiness of `not flag` for an `Option Bool` flag:
`not None` and `not False` are true, `not True` is false. -/
def pyNot : Option Bool → Bool
  | none => true
  | some b => !b

/-- Embeds `CopyEnterprise.start` (copy_enterprise.py lines 27-63): runs
`preview_start`, sleeps 2.5s, issues Start; then, when
`preview_reps == 0`, waits for the `flatbedAddPage` alert only if the
internal `_adf_loaded` flag is falsy and `_output_duplex is True`;
otherwise (`preview_reps != 0`) only if the device reports the ADF not
loaded.  A `TimeoutError` of the alert wait is swallowed and the Start
status is returned. -/
def startEnterprise (env : Env) (cst : CopyState) (jobId ticketId : String) (reps : Nat) :
    List Event × Except CopyErr Nat :=
  let prev := previewStartDune env jobId ticketId reps
  match prev.2 with
  | .error e => (prev.1, .error e)
  | .ok _ =>
    let s := env.changeStatus jobId "Start" "startProcessing"
    let evs2 := prev.1 ++ [.sleep25, .changeState jobId "Start" "startProcessing" s]
    if reps = 0 then
      if pyNot cst.adfLoaded && cst.outputDuplex == some true then
        if env.alertArrives "flatbedAddPage" then
          (evs2 ++ [.waitAlerts "flatbedAddPage", .alertAction "flatbedAddPage" "Response_02"],
            .ok s)
        else (evs2 ++ [.waitAlerts "flatbedAddPage"], .ok s)
      else (evs2, .ok s)
    else if env.adfLoadedDevice then (evs2, .ok s)
    else if env.alertArrives "flatbedAddPage" then
      (evs2 ++ [.waitAlerts "flatbedAddPage", .alertAction "flatbedAddPage" "Response_02"],
        .ok s)
    else (evs2 ++ [.waitAlerts "flatbedAddPage"], .ok s)

/-- Embeds `CopyDesignJet.start` (copy_designjet.py lines 11-39): runs
the base `preview_start` (with `preview_reps` defaulted to 0 by the
`super()` call); when the ticket id is non-empty and the ticket has the
two-segment pipeline marker, issues Prepare_Processing/prepareProcessing
(asserting 200), waits for the processing state, waits for all previews
to finish (asserting the result), and, when the device copy mode is
`"printWhileScanning"`, waits for the printing sub-status; finally issues
Start/startProcessing and returns its status. -/
def startDesignJet (env : Env) (jobId ticketId : String) (reps : Nat) :
    List Event × Except CopyErr Nat :=
  let prev := previewStartDune env jobId ticketId 0
  match prev.2 with
  | .error e => (prev.1, .error e)
  | .ok _ =>
    if ticketId ≠ "" ∧ hasTwoSegmentPipeline env ticketId = true then
      let sc := env.changeStatus jobId "Prepare_Processing" "prepareProcessing"
      let evs2 := prev.1 ++ [.changeState jobId "Prepare_Processing" "prepareProcessing" sc]
      if sc = 200 then
        if env.waitProcessingOk then
          let evs3 := evs2 ++ [.waitJobState jobId ["processing"], .waitAllPreviews jobId]
          if env.previewsDone then
            let evs4 :=
              if env.copyMode = "printWhileScanning" then evs3 ++ [.waitSubStatus "printing"]
              else evs3
            let s := env.changeStatus jobId "Start" "startProcessing"
            (evs4 ++ [.changeState jobId "Start" "startProcessing" s], .ok s)
          else (evs3, .error (.assertionError "Preview jobs did not finish successfully"))
        else
          (evs2 ++ [.waitJobState jobId ["processing"]],
            .error (.timeoutError waitJobStateMsg))
      else (evs2, .error (.stateTransitionError "Prepare_Processing" "prepareProcessing" sc))
    else
      let s := env.changeStatus jobId "Start" "startProcessing"
      (prev.1 ++ [.changeState jobId "Start" "startProcessing" s], .ok s)

/-- Recognizer of a Preview/prepareProcessing state-change event. -/
def isPreviewChange : Event → Bool
  | .changeState _ a t _ => a == "Preview" && t == "prepareProcessing"
  | _ => false

/-- Recognizer of a Start/startProcessing state-change event. -/
def isStartChange : Event → Bool
  | .changeState _ a t _ => a == "Start" && t == "startProcessing"
  | _ => false

/-- Recognizer of a `wait_for_alerts` event. -/
def isWaitAlert : Event → Bool
  | .waitAlerts _ => true
  | _ => false

/-- Recognizer of a `wait_for_job_state(job, [ready])` event. -/
def isWaitReady : Event → Bool
  | .waitJobState _ sts => sts == ["ready"]
  | _ => false

instance {e a : Type} [DecidableEq e] [DecidableEq a] : DecidableEq (Except e a)
  | .error x, .error y => if h : x = y then .isTrue (by rw [h]) else .isFalse (by simp [h])
  | .error _, .ok _ => .isFalse (by simp)
  | .ok _, .error _ => .isFalse (by simp)
  | .ok x, .ok y => if h : x = y then .isTrue (by rw [h]) else .isFalse (by simp [h])

/-- Statement of the preview-iteration property of `startDune`: the trace
is the base `preview_start` events (which contain no Preview
transitions), followed by exactly `reps` copies of the preview block
(one Preview/prepareProcessing change, a settle sleep, a wait back to
ready), followed by an optional settle sleep and the final
Start/startProcessing transition, after which no Preview transition
occurs. -/
def startPreviewShape (env : Env) (jobId ticketId : String) (reps : Nat) : Prop :=
  ∃ post : List Event,
    (startDune env jobId ticketId reps).1
      = (previewStartOld env jobId ticketId).1
        ++ (List.replicate reps (previewBlock env jobId)).flatten
        ++ (if reps = 0 then ([] : List Event) else [Event.sleep25])
        ++ Event.changeState jobId "Start" "startProcessing"
            (env.changeStatus jobId "Start" "startProcessing") :: post
    ∧ List.countP isPreviewChange (previewStartOld env jobId ticketId).1 = 0
    ∧ List.countP isPreviewChange post = 0

/-- Statement of the amended alert-handling behavior of `startDune` and
`startEnterprise`: the Start status is always returned (alert-wait
timeouts are swallowed), the base-dune variant waits for the
`flatbedAddPage` alert (answering `"Response_02"` when it arrives)
exactly when `preview_reps` is non-zero and the device reports the ADF
not loaded, and the enterprise variant waits exactly when
`preview_reps = 0` with `_adf_loaded` falsy and `_output_duplex`
identically `True`, or `preview_reps` non-zero with the device ADF not
loaded. -/
def alertHandlingAmended (env : Env) (cst : CopyState) (jobId ticketId : String)
    (reps s : Nat) : Prop :=
  (startDune env jobId ticketId reps).2 = .ok s
  ∧ (reps ≠ 0 → env.adfLoadedDevice = false →
      Event.waitAlerts "flatbedAddPage" ∈ (startDune env jobId ticketId reps).1
      ∧ (env.alertArrives "flatbedAddPage" = true →
          Event.alertAction "flatbedAddPage" "Response_02"
            ∈ (startDune env jobId ticketId reps).1))
  ∧ (reps = 0 → List.countP isWaitAlert (startDune env jobId ticketId reps).1 = 0)
  ∧ (startEnterprise env cst jobId ticketId reps).2 = .ok s
  ∧ (reps = 0 → pyNot cst.adfLoaded = true → cst.outputDuplex = some true →
      Event.waitAlerts "flatbedAddPage" ∈ (startEnterprise env cst jobId ticketId reps).1
      ∧ (env.alertArrives "flatbedAddPage" = true →
          Event.alertAction "flatbedAddPage" "Response_02"
            ∈ (startEnterprise env cst jobId ticketId reps).1))
  ∧ (reps = 0 → (pyNot cst.adfLoaded = false ∨ cst.outputDuplex ≠ some true) →
      List.countP isWaitAlert (startEnterprise env cst jobId ticketId reps).1 = 0)
  ∧ (reps ≠ 0 → env.adfLoadedDevice = false →
      Event.waitAlerts "flatbedAddPage" ∈ (startEnterprise env cst jobId ticketId reps).1
      ∧ (env.alertArrives "flatbedAddPage" = true →
          Event.alertAction "flatbedAddPage" "Response_02"
            ∈ (startEnterprise env cst jobId ticketId reps).1))
  ∧ (reps ≠ 0 → env.adfLoadedDevice = true →
      List.countP isWaitAlert (startDune env jobId ticketId reps).1 = 0
      ∧ List.countP isWaitAlert (startEnterprise env cst jobId ticketId reps).1 = 0)

/-- Statement of the designjet two-segment sequence: after the base
`preview_start` events, the trace is exactly the 200-status
Prepare_Processing transition, the wait for the processing state, the
wait for all preview sub-jobs, the printing sub-status wait exactly when
the device copy mode is `"printWhileScanning"`, and the final Start
transition, whose status is the returned value. -/
def designJetTwoSegmentShape (env : Env) (jobId ticketId : String) (reps : Nat) : Prop :=
  (startDesignJet env jobId ticketId reps).1
    = (previewStartDune env jobId ticketId 0).1
      ++ [Event.changeState jobId "Prepare_Processing" "prepareProcessing" 200,
          Event.waitJobState jobId ["processing"], Event.waitAllPreviews jobId]
      ++ (if env.copyMode = "printWhileScanning" then [Event.waitSubStatus "printing"] else [])
      ++ [Event.changeState jobId "Start" "startProcessing"
            (env.changeStatus jobId "Start" "startProcessing")]
  ∧ (startDesignJet env jobId ticketId reps).2
      = .ok (env.changeStatus jobId "Start" "startProcessing")

/-- Concrete all-success oracle: every state change returns 200, the
first readiness poll reads ready, preview waits succeed, the device
reports the ADF not loaded, alerts arrive, the ticket carries the
jobBuild capture mode, and the copy mode is print-while-scanning. -/
def envA : Env :=
  { changeStatus := fun _ _ _ => 200
    pollState := fun _ => "ready"
    waitTimeout := 4
    waitReadyOk := fun _ => true
    adfLoadedDevice := false
    alertArrives := fun _ => true
    getInfo := fun _ => some { scanCaptureMode := some "jobBuild" }
    copyMode := "printWhileScanning"
    waitProcessingOk := true
    previewsDone := true }

/-- Oracle whose readiness poll never reads ready. -/
def envB : Env := { envA with pollState := fun _ => "initializing" }

/-- Oracle whose Initialize transition returns 500. -/
def envC : Env :=
  { envA with changeStatus := fun _ a _ => if a = "Initialize" then 500 else 200 }

theorem readyPoll_mem (env : Env) (jobId : String) :
    ∀ n k e, e ∈ (readyPoll env jobId k n).1 →
      (∃ s, e = Event.getJobInfo jobId s) ∨ e = Event.sleep2 := by
  intro n
  induction n with
  | zero => intro k e h; simp [readyPoll] at h
  | succ m ih =>
    intro k e h
    by_cases hs : env.pollState k = "ready"
    · simp [readyPoll, hs] at h
      exact Or.inl ⟨"ready", h⟩
    · simp only [readyPoll, if_neg hs, List.mem_cons] at h
      rcases h with h | h | h
      · exact Or.inl ⟨env.pollState k, h⟩
      · exact Or.inr h
      · exact ih (k + 1) e h

theorem readyPoll_true_iff (env : Env) (jobId : String) :
    ∀ n k, (readyPoll env jobId k n).2 = true ↔
      ∃ i, i < n ∧ env.pollState (k + i) = "ready" := by
  intro n
  induction n with
  | zero => intro k; simp [readyPoll]
  | succ m ih =>
    intro k
    by_cases hs : env.pollState k = "ready"
    · simp only [readyPoll, if_pos hs]
      constructor
      · intro _; exact ⟨0, by omega, by simpa using hs⟩
      · intro _; trivial
    · simp only [readyPoll, if_neg hs]
      rw [ih (k + 1)]
      constructor
      · rintro ⟨i, hi, hr⟩
        exact ⟨i + 1, by omega, by rw [show k + (i + 1) = k + 1 + i by omega]; exact hr⟩
      · rintro ⟨i, hi, hr⟩
        match i with
        | 0 => exact absurd (by simpa using hr) hs
        | j + 1 =>
          exact ⟨j, by omega, by rw [show k + 1 + j = k + (j + 1) by omega]; exact hr⟩

theorem previewStartOld_mem (env : Env) (jobId ticketId : String) :
    ∀ e ∈ (previewStartOld env jobId ticketId).1,
      e = initEv env jobId ∨ (∃ s, e = Event.getJobInfo jobId s) ∨ e = Event.sleep2 := by
  intro e h
  by_cases hi : env.changeStatus jobId "Initialize" "initializeProcessing" = 200
  · by_cases hp : (readyPoll env jobId 0 (numPolls env.waitTimeout)).2
    · simp only [previewStartOld, if_pos hi, if_pos hp, List.mem_cons] at h
      rcases h with h | h
      · exact Or.inl h
      · exact Or.inr (readyPoll_mem env jobId _ 0 e h)
    · simp only [previewStartOld, if_pos hi, if_neg hp, List.mem_cons] at h
      rcases h with h | h
      · exact Or.inl h
      · exact Or.inr (readyPoll_mem env jobId _ 0 e h)
  · simp only [previewStartOld, if_neg hi, List.mem_singleton] at h
    exact Or.inl h

theorem previewLoop_mem (env : Env) (jobId : String) :
    ∀ n i e, e ∈ (previewLoop env jobId i n).1 →
      e = Event.changeState jobId "Preview" "prepareProcessing"
            (env.changeStatus jobId "Preview" "prepareProcessing")
      ∨ e = Event.sleep25 ∨ e = Event.waitJobState jobId ["ready"] := by
  intro n
  induction n with
  | zero => intro i e h; simp [previewLoop] at h
  | succ m ih =>
    intro i e h
    by_cases hw : env.waitReadyOk i
    · simp only [previewLoop, previewIter, if_pos hw, List.mem_append, List.mem_cons,
        List.not_mem_nil, or_false] at h
      rcases h with (h | h | h) | h
      · exact Or.inl h
      · exact Or.inr (Or.inl h)
      · exact Or.inr (Or.inr h)
      · exact ih (i + 1) e h
    · simp only [previewLoop, previewIter, if_neg hw, List.mem_cons,
        List.not_mem_nil, or_false] at h
      rcases h with h | h
      · exact Or.inl h
      · exact Or.inr (Or.inl h)

theorem previewLoop_ok_trace (env : Env) (jobId : String) :
    ∀ n i, (previewLoop env jobId i n).2 = .ok () →
      (previewLoop env jobId i n).1 = (List.replicate n (previewBlock env jobId)).flatten := by
  intro n
  induction n with
  | zero => intro i _; simp [previewLoop]
  | succ m ih =>
    intro i h
    by_cases hw : env.waitReadyOk i
    · simp only [previewLoop, previewIter, if_pos hw] at h ⊢
      rw [List.replicate_succ, List.flatten_cons, ih (i + 1) h]
      rfl
    · simp [previewLoop, previewIter, if_neg hw] at h

theorem previewStartDune_ok_trace (env : Env) (jobId ticketId : String) (reps : Nat)
    (h : (previewStartDune env jobId ticketId reps).2 = .ok ()) :
    (previewStartDune env jobId ticketId reps).1
      = (previewStartOld env jobId ticketId).1
        ++ (List.replicate reps (previewBlock env jobId)).flatten := by
  rcases hb : (previewStartOld env jobId ticketId).2 with e | u
  · simp [previewStartDune, hb] at h
  · rcases reps with _ | m
    · simp [previewStartDune, hb]
    · simp only [previewStartDune, hb] at h ⊢
      simp only [Nat.succ_ne_zero, if_false] at h ⊢
      rw [previewLoop_ok_trace env jobId (m + 1) 0 h]

theorem previewStartDune_mem (env : Env) (jobId ticketId : String) (reps : Nat) :
    ∀ e ∈ (previewStartDune env jobId ticketId reps).1,
      e = initEv env jobId ∨ (∃ s, e = Event.getJobInfo jobId s) ∨ e = Event.sleep2
      ∨ e = Event.changeState jobId "Preview" "prepareProcessing"
            (env.changeStatus jobId "Preview" "prepareProcessing")
      ∨ e = Event.sleep25 ∨ e = Event.waitJobState jobId ["ready"] := by
  intro e h
  rcases hb : (previewStartOld env jobId ticketId).2 with er | u
  · simp only [previewStartDune, hb] at h
    rcases previewStartOld_mem env jobId ticketId e h with h1 | h1 | h1
    · exact Or.inl h1
    · exact Or.inr (Or.inl h1)
    · exact Or.inr (Or.inr (Or.inl h1))
  · by_cases hr : reps = 0
    · simp only [previewStartDune, hb, if_pos hr] at h
      rcases previewStartOld_mem env jobId ticketId e h with h1 | h1 | h1
      · exact Or.inl h1
      · exact Or.inr (Or.inl h1)
      · exact Or.inr (Or.inr (Or.inl h1))
    · simp only [previewStartDune, hb, if_neg hr, List.mem_append] at h
      rcases h with h | h
      · rcases previewStartOld_mem env jobId ticketId e h with h1 | h1 | h1
        · exact Or.inl h1
        · exact Or.inr (Or.inl h1)
        · exact Or.inr (Or.inr (Or.inl h1))
      · rcases previewLoop_mem env jobId reps 0 e h with h1 | h1 | h1
        · exact Or.inr (Or.inr (Or.inr (Or.inl h1)))
        · exact Or.inr (Or.inr (Or.inr (Or.inr (Or.inl h1))))
        · exact Or.inr (Or.inr (Or.inr (Or.inr (Or.inr h1))))

theorem previewStartOld_countPreview (env : Env) (jobId ticketId : String) :
    List.countP isPreviewChange (previewStartOld env jobId ticketId).1 = 0 := by
  rw [List.countP_eq_zero]
  intro e h
  rcases previewStartOld_mem env jobId ticketId e h with h1 | ⟨s, h1⟩ | h1 <;>
    simp [h1, isPreviewChange, initEv]

theorem previewStartDune_countWaitAlert (env : Env) (jobId ticketId : String) (reps : Nat) :
    List.countP isWaitAlert (previewStartDune env jobId ticketId reps).1 = 0 := by
  rw [List.countP_eq_zero]
  intro e h
  rcases previewStartDune_mem env jobId ticketId reps e h with
    h1 | ⟨s, h1⟩ | h1 | h1 | h1 | h1 <;> simp [h1, isWaitAlert, initEv]

theorem updatingTicket_src (st : CopyState) (p : Payload) :
    (updatingTicket st p).2.src = p.src := by
  rcases p with ⟨os, od⟩
  rcases od with _ | d
  · simp [updatingTicket]
  · by_cases hp : d.plexMode = some "duplex" <;>
      simp [updatingTicket, hp]

/-- Claim C2: for every payload whose dest.print section has
plexMode "duplex", the normalization applied inside create_ticket before
persistence forces an absent or "oneSided" duplexBinding to
"twoSidedLongEdge", and keeps any other duplexBinding value (and the
rest of the dest.print section) unchanged. -/
theorem createTicket_duplexBinding (st : CopyState) (p : Payload) (d : PrintDest)
    (hd : p.dest = some d) (hplex : d.plexMode = some "duplex") :
    ((d.duplexBinding = none ∨ d.duplexBinding = some "oneSided") →
      (createTicketPayload st p).dest
        = some { d with duplexBinding := some "twoSidedLongEdge" })
    ∧ (∀ b, d.duplexBinding = some b → b ≠ "oneSided" →
      (createTicketPayload st p).dest = some d) := by
  constructor
  · rintro (hb | hb) <;>
      simp [createTicketPayload, updatingTicket, hd, hplex, hb]
  · intro b hb hne
    simp [createTicketPayload, updatingTicket, hd, hplex, hb, hne]

/-- Claim C9: enterprise ticket normalization applies every base rule
first (flags and dest section agree with the base normalization) and
then overwrites a present, truthy src.scan.resolution with "e600Dpi";
a payload without a src.scan.resolution value keeps its src section
unchanged by this override. -/
theorem enterpriseUpdatingTicket_spec (st : CopyState) (p : Payload) :
    (enterpriseUpdatingTicket st p).1 = (updatingTicket st p).1
    ∧ (enterpriseUpdatingTicket st p).2.dest = (updatingTicket st p).2.dest
    ∧ (∀ s r, p.src = some s → s.resolution = some r → r ≠ "" →
        (enterpriseUpdatingTicket st p).2.src
          = some { s with resolution := some "e600Dpi" })
    ∧ (∀ s, p.src = some s → s.resolution = none →
        (enterpriseUpdatingTicket st p).2.src = p.src)
    ∧ (p.src = none → (enterpriseUpdatingTicket st p).2.src = none) := by
  have hsrc := updatingTicket_src st p
  refine ⟨?_, ?_, ?_, ?_, ?_⟩
  · rcases hq : p.src with _ | s
    · rw [hq] at hsrc
      simp [enterpriseUpdatingTicket, hsrc]
    · rw [hq] at hsrc
      rcases hr : s.resolution with _ | r
      · simp [enterpriseUpdatingTicket, hsrc, hr]
      · by_cases he : r = "" <;> simp [enterpriseUpdatingTicket, hsrc, hr, he]
  · rcases hq : p.src with _ | s
    · rw [hq] at hsrc
      simp [enterpriseUpdatingTicket, hsrc]
    · rw [hq] at hsrc
      rcases hr : s.resolution with _ | r
      · simp [enterpriseUpdatingTicket, hsrc, hr]
      · by_cases he : r = "" <;> simp [enterpriseUpdatingTicket, hsrc, hr, he]
  · intro s r hps hres hrne
    rw [hps] at hsrc
    simp [enterpriseUpdatingTicket, hsrc, hres, hrne]
  · intro s hps hres
    rw [hps] at hsrc
    simp [enterpriseUpdatingTicket, hsrc, hres, hps]
  · intro hps
    rw [hps] at hsrc
    simp [enterpriseUpdatingTicket, hsrc, hps]

/-- Claim C4: two-segment-pipeline detection returns true exactly when
the ticket store's get_info succeeds and yields
src.scan.scanCaptureMode == "jobBuild"; a get_info failure or an absent
field yields false, and no error propagates (the embedding is a total
Bool-valued function). -/
theorem hasTwoSegmentPipeline_iff (env : Env) (ticketId : String) :
    hasTwoSegmentPipeline env ticketId = true ↔
      ∃ d, env.getInfo ticketId = some d ∧ d.scanCaptureMode = some "jobBuild" := by
  rcases hg : env.getInfo ticketId with _ | d
  · simp [hasTwoSegmentPipeline, hg]
  · rcases hm : d.scanCaptureMode with _ | v
    · simp [hasTwoSegmentPipeline, hg, hm]
    · simp only [hasTwoSegmentPipeline, hg, hm, beq_iff_eq]
      constructor
      · intro h
        exact ⟨d, rfl, by rw [hm, h]⟩
      · rintro ⟨d2, hd2, hm2⟩
        have : d2 = d := by injection hd2.symm
        rw [this, hm] at hm2
        injection hm2

/-- Claim C8: family resolution is a deterministic function of the
(family, product) pair: "enterprise", "designjet" and "homepro" select
their variants, "homepro" refines to beam exactly when the product name
contains "beam", and any unrecognized family selects the generic
base-dune behavior (no error path exists). -/
theorem resolveFamily_spec (f p : String) :
    (∀ f2 p2, f2 = f → p2 = p → resolveFamily f2 p2 = resolveFamily f p)
    ∧ resolveFamily "enterprise" p = .enterprise
    ∧ resolveFamily "designjet" p = .designjet
    ∧ (strContains p "beam" = true → resolveFamily "homepro" p = .beam)
    ∧ (strContains p "beam" = false → resolveFamily "homepro" p = .homepro)
    ∧ (f ≠ "enterprise" → f ≠ "designjet" → f ≠ "homepro" →
        resolveFamily f p = .dune) := by
  refine ⟨?_, ?_, ?_, ?_, ?_, ?_⟩
  · intro f2 p2 h1 h2; rw [h1, h2]
  · simp [resolveFamily]
  · simp [resolveFamily]
  · intro h; simp [resolveFamily, h]
  · intro h; simp [resolveFamily, h]
  · intro h1 h2 h3; simp [resolveFamily, h1, h2, h3]

/-- Claim C3: once the Initialize transition has succeeded, if the
2-second readiness poll never observes state "ready" within
WAIT_START_JOB_TIMEOUT seconds of starting the wait, preview_start fails
with a TimeoutError whose message names the ready state and the timeout
value; if "ready" is observed within the bound it returns normally. -/
theorem previewStart_ready_poll (env : Env) (jobId ticketId : String)
    (hinit : env.changeStatus jobId "Initialize" "initializeProcessing" = 200) :
    ((∀ k, 2 * k < env.waitTimeout → env.pollState k ≠ "ready") →
      (previewStartOld env jobId ticketId).2
        = .error (.timeoutError (readyTimeoutMsg env.waitTimeout)))
    ∧ ((∃ k, 2 * k < env.waitTimeout ∧ env.pollState k = "ready") →
      (previewStartOld env jobId ticketId).2 = .ok ()) := by
  have hiff := readyPoll_true_iff env jobId (numPolls env.waitTimeout) 0
  constructor
  · intro hno
    have hfalse : (readyPoll env jobId 0 (numPolls env.waitTimeout)).2 = false := by
      rcases hcase : (readyPoll env jobId 0 (numPolls env.waitTimeout)).2
      · rfl
      · exfalso
        rcases hiff.mp hcase with ⟨i, hi, hr⟩
        refine hno i ?_ (by simpa using hr)
        simp only [numPolls] at hi
        omega
    simp [previewStartOld, hinit, hfalse]
  · rintro ⟨k, hk, hr⟩
    have htrue : (readyPoll env jobId 0 (numPolls env.waitTimeout)).2 = true := by
      refine hiff.mpr ⟨k, ?_, by simpa using hr⟩
      simp only [numPolls]
      omega
    simp [previewStartOld, hinit, htrue]

/-- Claim C7: if the Initialize/initializeProcessing state change at
the top of preview_start returns a status other than 200, the sequence
fails with a state-transition error (the Python assert, in the spec's
error taxonomy) and no get_job_info readiness poll is ever issued. -/
theorem previewStart_init_assert (env : Env) (jobId ticketId : String) (s : Nat)
    (hs : env.changeStatus jobId "Initialize" "initializeProcessing" = s) (hne : s ≠ 200) :
    (previewStartOld env jobId ticketId).2
        = .error (.stateTransitionError "Initialize" "initializeProcessing" s)
    ∧ ∀ j2 st2, Event.getJobInfo j2 st2 ∉ (previewStartOld env jobId ticketId).1 := by
  have h200 : ¬(env.changeStatus jobId "Initialize" "initializeProcessing" = 200) := by
    rw [hs]; exact hne
  constructor
  · simp [previewStartOld, hs, hne]
  · intro j2 st2 hmem
    simp only [previewStartOld, if_neg h200, List.mem_singleton] at hmem
    simp [initEv] at hmem

/-- Claim C1: whenever startDune returns a status, that status is the
Start/startProcessing transition's code and the trace consists of the
base preview_start events (no Preview transitions), exactly previewReps
preview blocks (each a Preview/prepareProcessing change, a settle sleep,
and a wait back to "ready"), and then the final Start transition with no
further Preview transitions; with previewReps = 0 the preview sub-loop
contributes nothing. -/
theorem startDune_preview_reps (env : Env) (jobId ticketId : String) (reps s : Nat)
    (h : (startDune env jobId ticketId reps).2 = .ok s) :
    s = env.changeStatus jobId "Start" "startProcessing"
    ∧ startPreviewShape env jobId ticketId reps := by
  rcases hp : (previewStartDune env jobId ticketId reps).2 with e | u
  · simp [startDune, hp] at h
  · have htr := previewStartDune_ok_trace env jobId ticketId reps (by rw [hp])
    have hcnt := previewStartOld_countPreview env jobId ticketId
    by_cases hr : reps = 0
    · subst hr
      simp [startDune, hp] at h
      refine ⟨h.symm, ⟨[], ?_, hcnt, by simp⟩⟩
      simp [startDune, hp, htr]
    · by_cases ha : env.adfLoadedDevice
      · simp [startDune, hp, hr, ha] at h
        refine ⟨h.symm, ⟨[], ?_, hcnt, by simp⟩⟩
        simp [startDune, hp, hr, ha, htr, if_neg hr]
      · by_cases hl : env.alertArrives "flatbedAddPage"
        · simp [startDune, hp, hr, ha, hl] at h
          refine ⟨h.symm,
            ⟨[Event.waitAlerts "flatbedAddPage",
              Event.alertAction "flatbedAddPage" "Response_02"], ?_, hcnt, by
                simp [isPreviewChange]⟩⟩
          simp [startDune, hp, hr, ha, hl, htr, if_neg hr]
        · simp [startDune, hp, hr, ha, hl] at h
          refine ⟨h.symm,
            ⟨[Event.waitAlerts "flatbedAddPage"], ?_, hcnt, by simp [isPreviewChange]⟩⟩
          simp [startDune, hp, hr, ha, hl, htr, if_neg hr]

/-- Claim C10: on an enterprise orchestrator whose internal flags
still hold the constructor value None (create_ticket never called),
start with preview_reps = 0 never enters the flatbedAddPage alert wait
(the branch requires _output_duplex to be exactly True) and returns the
Start transition's status code directly. -/
theorem startEnterprise_none_flags (env : Env) (jobId ticketId : String)
    (hprev : (previewStartDune env jobId ticketId 0).2 = .ok ()) :
    (startEnterprise env initCopyState jobId ticketId 0).2
        = .ok (env.changeStatus jobId "Start" "startProcessing")
    ∧ List.countP isWaitAlert (startEnterprise env initCopyState jobId ticketId 0).1 = 0 := by
  have hcnt := previewStartDune_countWaitAlert env jobId ticketId 0
  constructor <;>
    simp [startEnterprise, hprev, initCopyState, pyNot, isWaitAlert,
      List.countP_append, hcnt]

/-- Claim C6 (amended): after Start, the base-dune variant waits for
the flatbedAddPage alert (answering "Response_02" when it arrives) only
when preview_reps is non-zero and the device reports the ADF not
loaded — with preview_reps = 0 it returns the Start status with no alert
wait; the enterprise variant waits when preview_reps = 0 with _adf_loaded
falsy and _output_duplex exactly True, or preview_reps non-zero with the
device ADF not loaded.  In every case a TimeoutError of the alert wait
is swallowed and the Start status code is returned. -/
theorem startAlert_amended (env : Env) (cst : CopyState) (jobId ticketId : String)
    (reps : Nat) (hprev : (previewStartDune env jobId ticketId reps).2 = .ok ()) :
    alertHandlingAmended env cst jobId ticketId reps
      (env.changeStatus jobId "Start" "startProcessing") := by
  have hcntD := previewStartDune_countWaitAlert env jobId ticketId reps
  refine ⟨?_, ?_, ?_, ?_, ?_, ?_, ?_, ?_⟩
  · by_cases hr : reps = 0
    · subst hr; simp [startDune, hprev]
    · by_cases ha : env.adfLoadedDevice
      · simp [startDune, hprev, hr, ha]
      · by_cases hl : env.alertArrives "flatbedAddPage" <;>
          simp [startDune, hprev, hr, ha, hl]
  · intro hr ha
    refine ⟨?_, ?_⟩
    · by_cases hl : env.alertArrives "flatbedAddPage" <;>
        simp [startDune, hprev, hr, ha, hl]
    · intro hl
      simp [startDune, hprev, hr, ha, hl]
  · intro hr
    subst hr
    simp [startDune, hprev, List.countP_append, hcntD, isWaitAlert]
  · by_cases hr : reps = 0
    · subst hr
      by_cases hc : (pyNot cst.adfLoaded && (cst.outputDuplex == some true)) = true
      · by_cases hl : env.alertArrives "flatbedAddPage" <;>
          simp [startEnterprise, hprev, hc, hl]
      · rw [Bool.not_eq_true] at hc
        simp [startEnterprise, hprev, hc]
    · by_cases ha : env.adfLoadedDevice
      · simp [startEnterprise, hprev, hr, ha]
      · by_cases hl : env.alertArrives "flatbedAddPage" <;>
          simp [startEnterprise, hprev, hr, ha, hl]
  · intro hr hpn hod
    subst hr
    have hc : (pyNot cst.adfLoaded && (cst.outputDuplex == some true)) = true := by
      simp [hpn, hod]
    refine ⟨?_, ?_⟩
    · by_cases hl : env.alertArrives "flatbedAddPage" <;>
        simp [startEnterprise, hprev, hc, hl]
    · intro hl
      simp [startEnterprise, hprev, hc, hl]
  · intro hr hdisj
    subst hr
    have hc : (pyNot cst.adfLoaded && (cst.outputDuplex == some true)) = false := by
      rcases hdisj with h1 | h1
      · simp [h1]
      · simp [h1]
    simp [startEnterprise, hprev, hc, List.countP_append, hcntD, isWaitAlert]
  · intro hr ha
    refine ⟨?_, ?_⟩
    · by_cases hl : env.alertArrives "flatbedAddPage" <;>
        simp [startEnterprise, hprev, hr, ha, hl]
    · intro hl
      simp [startEnterprise, hprev, hr, ha, hl]
  · intro hr ha
    constructor
    · simp [startDune, hprev, hr, ha, List.countP_append, hcntD, isWaitAlert]
    · simp [startEnterprise, hprev, hr, ha, List.countP_append, hcntD, isWaitAlert]

/-- Claim C5: for the designjet family, with a non-empty ticket id
whose ticket reads scanCaptureMode == "jobBuild", start issues
Prepare_Processing/prepareProcessing (which must return 200, otherwise
the sequence fails with a state-transition error), waits for the
"processing" state, waits for all preview sub-jobs, waits for the
"printing" sub-status exactly when the device copy mode is
"printWhileScanning", and then issues the final Start/startProcessing
transition whose status code is returned. -/
theorem startDesignJet_two_segment (env : Env) (jobId ticketId : String) (reps : Nat)
    (d : TicketData)
    (ht : ticketId ≠ "")
    (hinfo : env.getInfo ticketId = some d)
    (hmode : d.scanCaptureMode = some "jobBuild")
    (hprev : (previewStartDune env jobId ticketId 0).2 = .ok ())
    (hwp : env.waitProcessingOk = true)
    (hpd : env.previewsDone = true) :
    (env.changeStatus jobId "Prepare_Processing" "prepareProcessing" = 200 →
      designJetTwoSegmentShape env jobId ticketId reps)
    ∧ (∀ c, env.changeStatus jobId "Prepare_Processing" "prepareProcessing" = c →
        c ≠ 200 →
      (startDesignJet env jobId ticketId reps).2
        = .error (.stateTransitionError "Prepare_Processing" "prepareProcessing" c)) := by
  have h2seg : hasTwoSegmentPipeline env ticketId = true := by
    simp [hasTwoSegmentPipeline, hinfo, hmode]
  constructor
  · intro hpc
    constructor
    · by_cases hcm : env.copyMode = "printWhileScanning" <;>
        simp [startDesignJet, hprev, ht, h2seg, hpc, hwp, hpd, hcm, List.append_assoc]
    · by_cases hcm : env.copyMode = "printWhileScanning" <;>
        simp [startDesignJet, hprev, ht, h2seg, hpc, hwp, hpd, hcm]
  · intro c hc hcne
    simp [startDesignJet, hprev, ht, h2seg, hc, hcne]

/-- Claim C1 witness: the preview shape at a concrete all-success oracle
with two preview repetitions. -/
theorem startDune_preview_reps_witness :
    200 = envA.changeStatus "jw1" "Start" "startProcessing"
    ∧ startPreviewShape envA "jw1" "tw1" 2 :=
  startDune_preview_reps envA "jw1" "tw1" 2 200 (by decide)

/-- Claim C2 witness: a duplex payload with a oneSided binding is forced
to twoSidedLongEdge. -/
theorem createTicket_duplexBinding_witness :
    (createTicketPayload initCopyState
        { src := none,
          dest := some { plexMode := some "duplex", duplexBinding := some "oneSided" } }).dest
      = some { plexMode := some "duplex", duplexBinding := some "twoSidedLongEdge" } :=
  (createTicket_duplexBinding initCopyState
      { src := none,
        dest := some { plexMode := some "duplex", duplexBinding := some "oneSided" } }
      { plexMode := some "duplex", duplexBinding := some "oneSided" } rfl rfl).1
    (Or.inr rfl)

/-- Claim C3 witness: with a never-ready oracle the poll times out with
the exact message; with a ready oracle it returns normally. -/
theorem previewStart_ready_poll_witness :
    (previewStartOld envB "jw3" "tw3").2
        = .error (.timeoutError (readyTimeoutMsg envB.waitTimeout))
    ∧ (previewStartOld envA "jw3" "tw3").2 = .ok () := by
  have hne : ("initializing" : String) ≠ "ready" := by decide
  exact ⟨(previewStart_ready_poll envB "jw3" "tw3" (by decide)).1 (fun k _ => hne),
    (previewStart_ready_poll envA "jw3" "tw3" (by decide)).2 ⟨0, by decide, rfl⟩⟩

/-- Claim C4 witness: a jobBuild ticket is detected as two-segment. -/
theorem hasTwoSegmentPipeline_iff_witness :
    hasTwoSegmentPipeline envA "tw4" = true :=
  (hasTwoSegmentPipeline_iff envA "tw4").mpr
    ⟨{ scanCaptureMode := some "jobBuild" }, rfl, rfl⟩

/-- Claim C5 witness: the full two-segment sequence at a concrete
all-success oracle. -/
theorem startDesignJet_two_segment_witness :
    designJetTwoSegmentShape envA "jw5" "tw5" 0 :=
  (startDesignJet_two_segment envA "jw5" "tw5" 0 { scanCaptureMode := some "jobBuild" }
      (by decide) rfl rfl (by decide) rfl rfl).1 rfl

/-- Claim C6 counterexample: on the base-dune family with the device ADF
not loaded, start with preview_reps = 0 succeeds yet performs no
flatbedAddPage alert wait at all, refuting the claim as stated. -/
theorem startDune_alert_cex :
    envA.adfLoadedDevice = false
    ∧ (startDune envA "jc6" "tc6" 0).2 = .ok 200
    ∧ List.countP isWaitAlert (startDune envA "jc6" "tc6" 0).1 = 0 :=
  ⟨rfl, by decide, by decide⟩

/-- Claim C6 (amended) witness: the amended alert-handling behavior at a
concrete oracle with one preview repetition. -/
theorem startAlert_amended_witness :
    alertHandlingAmended envA initCopyState "jw6" "tw6" 1
      (envA.changeStatus "jw6" "Start" "startProcessing") :=
  startAlert_amended envA initCopyState "jw6" "tw6" 1 (by decide)

/-- Claim C7 witness: an Initialize status of 500 fails the sequence
before any readiness poll. -/
theorem previewStart_init_assert_witness :
    (previewStartOld envC "jw7" "tw7").2
        = .error (.stateTransitionError "Initialize" "initializeProcessing" 500)
    ∧ ∀ j2 st2, Event.getJobInfo j2 st2 ∉ (previewStartOld envC "jw7" "tw7").1 :=
  previewStart_init_assert envC "jw7" "tw7" 500 (by decide) (by decide)

/-- Claim C8 witness: a beam product refines homepro to beam, and an
unrecognized family falls through to the generic base-dune variant. -/
theorem resolveFamily_spec_witness :
    resolveFamily "homepro" "hp beam printer" = .beam
    ∧ resolveFamily "ares" "hp beam printer" = .dune :=
  ⟨(resolveFamily_spec "ares" "hp beam printer").2.2.2.1 (by decide),
   (resolveFamily_spec "ares" "hp beam printer").2.2.2.2.2 (by decide) (by decide)
     (by decide)⟩

/-- Claim C9 witness: a truthy scan resolution is overwritten with
e600Dpi by the enterprise normalization. -/
theorem enterpriseUpdatingTicket_spec_witness :
    (enterpriseUpdatingTicket initCopyState
        { src := some { mediaSource := none, plexMode := none, resolution := some "e300Dpi" },
          dest := none }).2.src
      = some { mediaSource := none, plexMode := none, resolution := some "e600Dpi" } :=
  (enterpriseUpdatingTicket_spec initCopyState
      { src := some { mediaSource := none, plexMode := none, resolution := some "e300Dpi" },
        dest := none }).2.2.1
    { mediaSource := none, plexMode := none, resolution := some "e300Dpi" } "e300Dpi"
    rfl rfl (by decide)

/-- Claim C10 witness: a fresh enterprise orchestrator with preview_reps
zero performs no alert wait and returns the Start status. -/
theorem startEnterprise_none_flags_witness :
    (startEnterprise envA initCopyState "jw10" "tw10" 0).2
        = .ok (envA.changeStatus "jw10" "Start" "startProcessing")
    ∧ List.countP isWaitAlert (startEnterprise envA initCopyState "jw10" "tw10" 0).1 = 0 :=
  startEnterprise_none_flags envA "jw10" "tw10" (by decide)

end DuneCopy

